import Mathlib

/-!
Verification of the WaveSyncDB replication core against its specification.

The development shallowly embeds the Rust sources of the `wavesyncdb` crate:
pure functions become Lean functions, the stateful pieces (the hybrid logical
clock, the `_wavesync_log` table) become explicit state passing, and the
opaque external collaborators (the SQL store, the network) become oracle
parameters.  Machine integers are modelled as `Nat`; none of the code under
study relies on wrap-around arithmetic.  Rust strings are modelled through
their character lists (`String.data`); the SQL under study is ASCII, where
Rust byte indices and character indices agree.
-/

set_option maxRecDepth 4000

namespace WaveSync

/-! ### Character-list helpers mirroring Rust `str` methods -/

/-- Rust `str::trim`: drop Unicode whitespace from both ends
(modelled with `Char.isWhitespace`). -/
def trimWs (s : List Char) : List Char :=
  ((s.dropWhile Char.isWhitespace).reverse.dropWhile Char.isWhitespace).reverse

/-- Rust `str::trim_end`: drop trailing whitespace. -/
def trimEndWs (s : List Char) : List Char :=
  (s.reverse.dropWhile Char.isWhitespace).reverse

/-- Rust `str::trim_start`: drop leading whitespace. -/
def trimLeftWs (s : List Char) : List Char :=
  s.dropWhile Char.isWhitespace

/-- Rust `str::to_uppercase` on ASCII SQL text (character-wise upper-casing). -/
def toUpperL (s : List Char) : List Char :=
  s.map Char.toUpper

/-- Rust `str::starts_with`. -/
def startsWithL (s pat : List Char) : Bool :=
  pat.isPrefixOf s

/-- Rust `str::trim_matches(c)`: strip every leading and trailing occurrence
of the character `c`. -/
def trimMatchesL (c : Char) (s : List Char) : List Char :=
  (((s.dropWhile (· = c)).reverse).dropWhile (· = c)).reverse

/-- Rust `str::split_whitespace().collect::<Vec<_>>()`: split on whitespace
runs, discarding empty fragments.  `cur` is the reversed current fragment. -/
def splitWsAux : List Char → List Char → List (List Char)
  | [], cur => if cur = [] then [] else [cur.reverse]
  | c :: rest, cur =>
      if Char.isWhitespace c then
        if cur = [] then splitWsAux rest []
        else cur.reverse :: splitWsAux rest []
      else splitWsAux rest (c :: cur)

/-- Rust `str::split_whitespace`. -/
def splitWs (s : List Char) : List (List Char) :=
  splitWsAux s []

/-- Rust `str::split_once(pat)`: split at the first occurrence of `pat`,
returning the text before and after it. -/
def splitOnceL (pat : List Char) : List Char → Option (List Char × List Char)
  | [] => if pat.isPrefixOf ([] : List Char) then some ([], []) else none
  | c :: rest =>
      if pat.isPrefixOf (c :: rest) then some ([], (c :: rest).drop pat.length)
      else (splitOnceL pat rest).map (fun p => (c :: p.1, p.2))

/-- Rust `str::rfind(pat)`: index of the last occurrence of `pat`. -/
def rfindIdx (pat : List Char) : List Char → Option Nat
  | [] => if pat.isPrefixOf ([] : List Char) then some 0 else none
  | c :: rest =>
      match (rfindIdx pat rest).map (· + 1) with
      | some i => some i
      | none => if pat.isPrefixOf (c :: rest) then some 0 else none

/-- Rust `str::find(c)` for a single character. -/
def firstIdxOf (c : Char) : List Char → Option Nat
  | [] => none
  | x :: rest =>
      if x = c then some 0 else (firstIdxOf c rest).map (· + 1)

/-- Rust `str::replacen(pat, rep, 1)`: replace the first occurrence of `pat`
by `rep`. -/
def replaceFirst (pat rep : List Char) : List Char → List Char
  | [] => if pat.isPrefixOf ([] : List Char) then rep else []
  | c :: rest =>
      if pat.isPrefixOf (c :: rest) then rep ++ (c :: rest).drop pat.length
      else c :: replaceFirst pat rep rest

/-- Rust `str::eq_ignore_ascii_case`. -/
def eqIgnoreAsciiCase (a b : List Char) : Bool :=
  a.map Char.toLower = b.map Char.toLower

/-- Numeric value of an ASCII digit run. -/
def natOfDigits (ds : List Char) : Nat :=
  ds.foldl (fun a c => a * 10 + (c.toNat - 48)) 0

/-! ### Data model

The crate re-exports `SyncOperation`, `WriteKind`, `NodeId` and
`ChangeNotification` from `crate::messages`, but the file defining them is
not among the sources (the `messages.rs` present belongs to the crate's other,
sqlx-based lineage).  They are therefore reconstructed from the spec (§3) and
from every use site in `conflict.rs`, `connection.rs`, `engine.rs` and
`sync_log.rs`. -/

/-- Write kinds, spec §3: one of Insert, Update, Delete. -/
inductive WriteKind
  | insert
  | update
  | delete
deriving DecidableEq, Repr

/-- Modelled from the spec: `SyncOperation` (§3), the unit of replication.
The defining module is not under src/; field names and types follow the spec
and the construction/use sites (`conflict.rs` tests, `connection.rs:222-232`,
`sync_log.rs:40-70`).  `node_id` is the 16-byte origin identifier, held as a
byte list; `data` is the optional payload (`payload` in the spec), which the
interceptor always fills with the UTF-8 bytes of the resolved SQL, so it is
modelled as the decoded string. -/
structure SyncOperation where
  op_id : Nat
  hlc_time : Nat
  hlc_counter : Nat
  node_id : List Nat
  table : String
  kind : WriteKind
  primary_key : String
  data : Option String
  columns : Option (List String)
deriving DecidableEq, Repr

/-- Modelled from the spec: `ChangeNotification` (§3): `(table, kind,
primary_key)`.  The defining module is not under src/. -/
structure ChangeNotification where
  table : String
  kind : WriteKind
  primary_key : String
deriving DecidableEq, Repr

/-- Metadata about a synced table, `registry.rs:15-22`. -/
structure TableMeta where
  table_name : String
  primary_key_column : String
  columns : List String
deriving DecidableEq, Repr

/-! ### Conflict resolution (`conflict.rs`) -/

/-- Rust `[u8; 16]` / slice lexicographic strict order, as produced by the
derived `Ord` used in `(remote.hlc_time, remote.hlc_counter, &remote.node_id) >
(...)` at `conflict.rs:21-22`. -/
def nodeIdLt : List Nat → List Nat → Bool
  | [], [] => false
  | [], _ :: _ => true
  | _ :: _, [] => false
  | x :: xs, y :: ys => decide (x < y) || (decide (x = y) && nodeIdLt xs ys)

/-- Rust lexicographic `>` on the triple `(hlc_time, hlc_counter, node_id)`,
unfolding the derived tuple ordering used in `conflict.rs:21-22`. -/
def tupleGt (r l : SyncOperation) : Bool :=
  decide (l.hlc_time < r.hlc_time) ||
    (decide (l.hlc_time = r.hlc_time) &&
      (decide (l.hlc_counter < r.hlc_counter) ||
        (decide (l.hlc_counter = r.hlc_counter) && nodeIdLt l.node_id r.node_id)))

/-- `conflict.rs:17-25`: whether a remote operation should be applied over the
local state. -/
def should_apply (remote : SyncOperation) (localOp : Option SyncOperation) : Bool :=
  match localOp with
  | none => true
  | some l => tupleGt remote l

/-! Lemmas relating the byte order to `List.Lex` and its trichotomy. -/

lemma nodeIdLt_iff_lex :
    ∀ xs ys : List Nat, nodeIdLt xs ys = true ↔ List.Lex (· < ·) xs ys := by
  intro xs
  induction xs with
  | nil =>
    intro ys
    cases ys with
    | nil => simp [nodeIdLt]
    | cons y t => exact ⟨fun _ => List.Lex.nil, fun _ => rfl⟩
  | cons x xs ih =>
    intro ys
    cases ys with
    | nil => simp [nodeIdLt]
    | cons y t =>
      simp only [nodeIdLt, Bool.or_eq_true, Bool.and_eq_true, decide_eq_true_eq]
      constructor
      · rintro (h | ⟨rfl, h⟩)
        · exact List.Lex.rel h
        · exact List.Lex.cons ((ih t).mp h)
      · intro h
        cases h with
        | rel h => exact Or.inl h
        | cons h => exact Or.inr ⟨rfl, (ih t).mpr h⟩

lemma nodeIdLt_irrefl : ∀ xs : List Nat, nodeIdLt xs xs = false := by
  intro xs
  induction xs with
  | nil => rfl
  | cons x t ih => simp [nodeIdLt, ih]

lemma nodeIdLt_asymm :
    ∀ xs ys : List Nat, nodeIdLt xs ys = true → nodeIdLt ys xs = false := by
  intro xs
  induction xs with
  | nil =>
    intro ys h
    cases ys with
    | nil => rfl
    | cons y t => rfl
  | cons x t ih =>
    intro ys h
    cases ys with
    | nil => exact absurd h (by simp [nodeIdLt])
    | cons y u =>
      simp only [nodeIdLt, Bool.or_eq_true, Bool.and_eq_true, decide_eq_true_eq] at h
      rcases h with h | ⟨he, h⟩
      · have h1 : ¬ y < x := by omega
        have h2 : ¬ y = x := by omega
        simp [nodeIdLt, h1, h2]
      · subst he
        simp [nodeIdLt, ih u h]

lemma nodeIdLt_total :
    ∀ xs ys : List Nat, xs ≠ ys → nodeIdLt xs ys = true ∨ nodeIdLt ys xs = true := by
  intro xs
  induction xs with
  | nil =>
    intro ys h
    cases ys with
    | nil => exact absurd rfl h
    | cons y t => exact Or.inl rfl
  | cons x t ih =>
    intro ys h
    cases ys with
    | nil => exact Or.inr rfl
    | cons y u =>
      rcases Nat.lt_trichotomy x y with hxy | hxy | hxy
      · left
        simp [nodeIdLt, hxy]
      · subst hxy
        have ht : t ≠ u := fun he => h (by rw [he])
        rcases ih u ht with h' | h'
        · left; simp [nodeIdLt, h']
        · right; simp [nodeIdLt, h']
      · right
        simp [nodeIdLt, hxy]

/-- The winning condition of `tupleGt` as a proposition. -/
lemma tupleGt_true_iff (r l : SyncOperation) :
    tupleGt r l = true ↔
      (l.hlc_time < r.hlc_time ∨
        (l.hlc_time = r.hlc_time ∧ l.hlc_counter < r.hlc_counter) ∨
        (l.hlc_time = r.hlc_time ∧ l.hlc_counter = r.hlc_counter ∧
          nodeIdLt l.node_id r.node_id = true)) := by
  simp only [tupleGt, Bool.or_eq_true, Bool.and_eq_true, decide_eq_true_eq]
  tauto

lemma tupleGt_asymm (a b : SyncOperation) (h : tupleGt a b = true) :
    tupleGt b a = false := by
  rw [tupleGt_true_iff] at h
  rw [Bool.eq_false_iff]
  intro h'
  rw [tupleGt_true_iff] at h'
  rcases h with h | ⟨e1, h⟩ | ⟨e1, e2, h⟩ <;>
    rcases h' with h' | ⟨f1, h'⟩ | ⟨f1, f2, h'⟩ <;>
      first
        | omega
        | exact absurd h' (by simp [nodeIdLt_asymm _ _ h])

lemma tupleGt_eq_tuples (a b : SyncOperation)
    (he : (a.hlc_time, a.hlc_counter, a.node_id) = (b.hlc_time, b.hlc_counter, b.node_id)) :
    tupleGt a b = false ∧ tupleGt b a = false := by
  have e1 : a.hlc_time = b.hlc_time := congrArg Prod.fst he
  have e2 : a.hlc_counter = b.hlc_counter := congrArg (Prod.fst ∘ Prod.snd) he
  have e3 : a.node_id = b.node_id := congrArg (Prod.snd ∘ Prod.snd) he
  constructor <;> simp [tupleGt, e1, e2, e3, nodeIdLt_irrefl]

lemma tupleGt_total (a b : SyncOperation)
    (hne : (a.hlc_time, a.hlc_counter, a.node_id) ≠ (b.hlc_time, b.hlc_counter, b.node_id)) :
    tupleGt a b = true ∨ tupleGt b a = true := by
  rcases Nat.lt_trichotomy a.hlc_time b.hlc_time with ht | ht | ht
  · right; rw [tupleGt_true_iff]; exact Or.inl ht
  · rcases Nat.lt_trichotomy a.hlc_counter b.hlc_counter with hc | hc | hc
    · right; rw [tupleGt_true_iff]; exact Or.inr (Or.inl ⟨ht, hc⟩)
    · by_cases hn : a.node_id = b.node_id
      · exact absurd (by rw [ht, hc, hn]) hne
      · rcases nodeIdLt_total a.node_id b.node_id hn with h | h
        · right; rw [tupleGt_true_iff]; exact Or.inr (Or.inr ⟨ht, hc, h⟩)
        · left; rw [tupleGt_true_iff]; exact Or.inr (Or.inr ⟨ht.symm, hc.symm, h⟩)
    · left; rw [tupleGt_true_iff]; exact Or.inr (Or.inl ⟨ht.symm, hc⟩)
  · left; rw [tupleGt_true_iff]; exact Or.inl ht

/-- C1: `should_apply(r, l)` is true when `l` is absent; when `l` is present it
is true exactly when `(r.hlc_time, r.hlc_counter, r.node_id)` is
lexicographically strictly greater than the local tuple (`node_id` compared
byte-lexicographically), and false when the tuples are equal. -/
theorem C1_should_apply_lww_order :
    (∀ r, should_apply r none = true) ∧
    (∀ r l, should_apply r (some l) = true ↔
      (l.hlc_time < r.hlc_time ∨
        (l.hlc_time = r.hlc_time ∧ l.hlc_counter < r.hlc_counter) ∨
        (l.hlc_time = r.hlc_time ∧ l.hlc_counter = r.hlc_counter ∧
          List.Lex (· < ·) l.node_id r.node_id))) ∧
    (∀ r l, l.hlc_time = r.hlc_time → l.hlc_counter = r.hlc_counter →
      l.node_id = r.node_id → should_apply r (some l) = false) := by
  refine ⟨fun _ => rfl, ?_, ?_⟩
  · intro r l
    simp only [should_apply, tupleGt, Bool.or_eq_true, Bool.and_eq_true,
      decide_eq_true_eq, nodeIdLt_iff_lex]
    tauto
  · intro r l ht hc hn
    simp [should_apply, tupleGt, ht, hc, hn, nodeIdLt_irrefl]

/-- Concrete operations used by witnesses and counterexamples. -/
def opBase : SyncOperation :=
  { op_id := 0, hlc_time := 100, hlc_counter := 0, node_id := List.replicate 16 1,
    table := "t1", kind := WriteKind.update, primary_key := "1",
    data := none, columns := none }

def opLater : SyncOperation :=
  { opBase with hlc_time := 200 }

/-- Witness for C1 at concrete inputs: an identical tuple is rejected, and a
strictly later `hlc_time` wins. -/
theorem C1_witness :
    should_apply opBase (some opBase) = false ∧
    should_apply opLater (some opBase) = true :=
  ⟨C1_should_apply_lww_order.2.2 opBase opBase rfl rfl rfl,
    (C1_should_apply_lww_order.2.1 opLater opBase).mpr (Or.inl (by decide))⟩

/-- Two operations with identical LWW tuples but different target tables. -/
def opTblA : SyncOperation :=
  { opBase with table := "ta" }

def opTblB : SyncOperation :=
  { opBase with table := "tb" }

/-- C2 counterexample: `should_apply` compares only `(hlc_time, hlc_counter,
node_id)`, so two distinct operations with equal tuples (here differing in
`table`) both lose, refuting "exactly one ... unless a == b". -/
theorem C2_counterexample :
    opTblA ≠ opTblB ∧
    should_apply opTblA (some opTblB) = false ∧
    should_apply opTblB (some opTblA) = false := by
  refine ⟨by decide, by decide, by decide⟩

/-- C2 (amended): for all operations `a`, `b`, if their `(hlc_time,
hlc_counter, node_id)` tuples are equal then both `should_apply(a, Some(b))`
and `should_apply(b, Some(a))` are false; otherwise exactly one of them is
true. -/
theorem C2_lww_totality_amended (a b : SyncOperation) :
    ((a.hlc_time, a.hlc_counter, a.node_id) = (b.hlc_time, b.hlc_counter, b.node_id) →
      should_apply a (some b) = false ∧ should_apply b (some a) = false) ∧
    ((a.hlc_time, a.hlc_counter, a.node_id) ≠ (b.hlc_time, b.hlc_counter, b.node_id) →
      (should_apply a (some b) = true ↔ should_apply b (some a) = false)) := by
  constructor
  · intro he
    simpa only [should_apply] using tupleGt_eq_tuples a b he
  · intro hne
    simp only [should_apply]
    constructor
    · intro h1
      exact tupleGt_asymm a b h1
    · intro h2
      rcases tupleGt_total a b hne with h | h
      · exact h
      · exact absurd h (by simp [h2])

/-- Witness for C2 (amended) at concrete distinct-tuple inputs. -/
theorem C2_witness :
    should_apply opLater (some opTblA) = true ↔
      should_apply opTblA (some opLater) = false :=
  (C2_lww_totality_amended opLater opTblA).2 (by decide)

/-! ### Clock (`connection.rs:176-181`, spec §4.1)

The clock implementation is the external `uhlc` crate, which is not among the
sources; only its call sites are.  The generation rule is therefore modelled
from the spec. -/

/-- Clock state: the last emitted `(lt, lc)` tuple. -/
structure ClockState where
  lt : Nat
  lc : Nat
deriving DecidableEq, Repr

/-- Modelled from the spec: the HLC generation rule of §4.1 (the clock
implementation, the external `uhlc` crate, is not under src/): with `now` the
physical reading and `(lt, lc)` the last emitted tuple, if `now > lt` emit
`(now, 0)`, else emit `(lt, lc+1)`. -/
def clockNext (st : ClockState) (now : Nat) : ClockState :=
  if now > st.lt then ⟨now, 0⟩ else ⟨st.lt, st.lc + 1⟩

/-- The low byte of the clock identifier, built at `connection.rs:501-506`:
the node id interpreted as a little-endian `u128`, replaced by `1` when zero
(the `NonZeroU128` fallback).  Its first little-endian byte is the first byte
of `node_id`, or `1` for the all-zero id. -/
def hlcIdByte (nodeId : List Nat) : Nat :=
  if nodeId.all (· = 0) then 1 else nodeId.headD 0

/-- `connection.rs:176-181`: `next_hlc` draws a timestamp from the clock and
returns `(ts.get_time().as_u64(), ts.get_id().to_le_bytes()[0] as u32)` — the
time of the newly emitted tuple paired with the first byte of the clock
identifier (not the logical counter). -/
def next_hlc (nodeId : List Nat) (st : ClockState) (now : Nat) :
    (Nat × Nat) × ClockState :=
  let st' := clockNext st now
  ((st'.lt, hlcIdByte nodeId), st')

/-! ### Registry (`registry.rs`) and interceptor (`connection.rs`) -/

/-- `registry.rs:73-75`: whether a table name is a key of the registry map. -/
def is_registered (reg : List (String × TableMeta)) (name : String) : Bool :=
  reg.any (fun p => p.1 == name)

/-- `connection.rs:184-208`: classify a SQL statement from its first keyword
(case-insensitively) and extract the target table from the whitespace-split
words, stripping `"` and `` ` `` quoting. -/
def classify_write (sql : String) : Option (WriteKind × String) :=
  let trimmed := toUpperL (trimLeftWs sql.data)
  let parts := splitWs sql.data
  if startsWithL trimmed ("INSERT".data) then
    match parts with
    | _ :: _ :: p2 :: _ =>
        some (WriteKind.insert, String.mk (trimMatchesL '`' (trimMatchesL '"' p2)))
    | _ => none
  else if startsWithL trimmed ("UPDATE".data) then
    match parts with
    | _ :: p1 :: _ =>
        some (WriteKind.update, String.mk (trimMatchesL '`' (trimMatchesL '"' p1)))
    | _ => none
  else if startsWithL trimmed ("DELETE".data) then
    match parts with
    | _ :: _ :: p2 :: _ =>
        some (WriteKind.delete, String.mk (trimMatchesL '`' (trimMatchesL '"' p2)))
    | _ => none
  else none

/-- `connection.rs:213-246`: after a successful write, build and dispatch a
`SyncOperation` and a `ChangeNotification` — unless the table carries the
reserved `_wavesync` prefix or is not registered, in which case nothing is
sent and the clock is left untouched.  The random `op_id` and the wall clock
are oracle parameters; the returned option holds the op sent to the engine
queue together with the notification broadcast by the spawned task.  Note
`primary_key` is set to the empty string (`String::new()` at
`connection.rs:229`). -/
def dispatch_sync (reg : List (String × TableMeta)) (nodeId : List Nat)
    (st : ClockState) (now opId : Nat) (kind : WriteKind)
    (table resolvedSql : String) :
    Option (SyncOperation × ChangeNotification) × ClockState :=
  if startsWithL table.data ("_wavesync".data) then (none, st)
  else if !(is_registered reg table) then (none, st)
  else
    let st' := clockNext st now
    (some
      ({ op_id := opId, hlc_time := st'.lt, hlc_counter := hlcIdByte nodeId,
         node_id := nodeId, table := table, kind := kind, primary_key := "",
         data := some resolvedSql, columns := none },
       { table := table, kind := kind, primary_key := "" }), st')

/-! ### Sync log (`sync_log.rs`) -/

/-- A row of the `_wavesync_log` table, `sync_log.rs:21-32` (the
`created_at` column, filled by a SQL default, is omitted). -/
structure LogRow where
  op_id : String
  hlc_time : Nat
  hlc_counter : Nat
  node_id : List Nat
  table_name : String
  kind : String
  primary_key : String
  data : Option String
  columns : Option String
deriving DecidableEq, Repr

/-- `sync_log.rs:41-45`: textual form of a write kind. -/
def kind_str : WriteKind → String
  | WriteKind.insert => "insert"
  | WriteKind.update => "update"
  | WriteKind.delete => "delete"

/-- JSON string escaping as performed by `serde_json` for plain text
(quotes and backslashes). -/
def jsonEscape (s : List Char) : List Char :=
  (s.map (fun c => if c = '"' || c = '\\' then ['\\', c] else [c])).flatten

/-- `serde_json::to_string` of a `Vec<String>`, used for the `columns`
column at `sync_log.rs:46-49`. -/
def jsonStringArray (xs : List String) : String :=
  String.mk ('[' :: ((xs.map (fun s => '"' :: (jsonEscape s.data ++ ['"']))).intersperse [',']).flatten ++ [']'])

/-- `sync_log.rs:40-70`: `INSERT OR REPLACE` of an operation into
`_wavesync_log`, keyed on the textual `op_id`. -/
def insert_op (log : List LogRow) (op : SyncOperation) : List LogRow :=
  let row : LogRow :=
    { op_id := toString op.op_id, hlc_time := op.hlc_time,
      hlc_counter := op.hlc_counter, node_id := op.node_id,
      table_name := op.table, kind := kind_str op.kind,
      primary_key := op.primary_key, data := op.data,
      columns := op.columns.map jsonStringArray }
  (log.filter (fun r => r.op_id ≠ row.op_id)) ++ [row]

/-- The local-write path: `execute_raw`/`execute_unprepared`
(`connection.rs:263-302`) classify the resolved SQL and call
`dispatch_sync`; the engine (`engine.rs:159-180`) appends the queued op to
the sync log and emits the notification.  Returns the new log, the emitted
notifications and the clock state. -/
def localWrite (reg : List (String × TableMeta)) (nodeId : List Nat)
    (st : ClockState) (now opId : Nat) (log : List LogRow) (sql : String) :
    List LogRow × List ChangeNotification × ClockState :=
  match classify_write sql with
  | none => (log, [], st)
  | some (kind, table) =>
    match dispatch_sync reg nodeId st now opId kind table sql with
    | (none, st') => (log, [], st')
    | (some (op, note), st') => (insert_op log op, [note], st')

/-! ### Remote apply (`engine.rs:341-410`) -/

/-- `engine.rs:404-410`: strip a trailing `RETURNING` clause, cutting at the
last occurrence of `" RETURNING "` in the upper-cased statement. -/
def strip_returning (sql : String) : String :=
  match rfindIdx (" RETURNING ".data) (toUpperL sql.data) with
  | some pos => String.mk (sql.data.take pos)
  | none => sql

/-- `engine.rs:367-375`: the statement actually executed for a remote op —
`RETURNING` stripped, and for inserts the first `INSERT INTO` rewritten to
`INSERT OR REPLACE INTO`. -/
def remoteFinalSql (op : SyncOperation) (sql : String) : String :=
  let clean := strip_returning sql
  if op.kind = WriteKind.insert then
    String.mk (replaceFirst ("INSERT INTO".data) ("INSERT OR REPLACE INTO".data) clean.data)
  else clean

/-- `engine.rs:347-350`: `get_latest_for_row(...).await.ok().flatten()` —
a database error is collapsed into "no local operation". -/
def okFlatten (res : Except String (Option SyncOperation)) : Option SyncOperation :=
  match res with
  | Except.ok v => v
  | Except.error _ => none

/-- Observable effects of one remote-op application: the statement submitted
to the local store (if any), the resulting sync log and the notifications
sent.  `apply_remote_op` returns `()` in the source; there is no error
channel. -/
structure ApplyEffects where
  executed : Option String
  log : List LogRow
  notes : List ChangeNotification
deriving DecidableEq, Repr

/-- `engine.rs:341-399`: handle one deserialized remote
operation.  `lookupRes` is the outcome of the sync-log lookup and `execOk`
the oracle for the opaque local store's acceptance of a statement.  The
payload bytes are modelled as the decoded SQL string (the interceptor always
fills them with valid UTF-8). -/
def apply_remote_op (lookupRes : Except String (Option SyncOperation))
    (execOk : String → Bool) (log : List LogRow) (op : SyncOperation) :
    ApplyEffects :=
  let localLatest := okFlatten lookupRes
  if !(should_apply op localLatest) then
    { executed := none, log := log, notes := [] }
  else
    match op.data with
    | some sql =>
      let finalSql := remoteFinalSql op sql
      if execOk finalSql then
        { executed := some finalSql, log := insert_op log op,
          notes := [{ table := op.table, kind := op.kind, primary_key := op.primary_key }] }
      else
        { executed := some finalSql, log := log, notes := [] }
    | none =>
      { executed := none, log := insert_op log op,
        notes := [{ table := op.table, kind := op.kind, primary_key := op.primary_key }] }

/-! ### Claims C3, C4, C5, C6, C10 -/

/-- A node id whose first byte is 5. -/
def nodeFive : List Nat := 5 :: List.replicate 15 0

/-- C3: the clock rule says a fresh physical time emits counter 0, but
`next_hlc` returns the first byte of the clock identifier (here 5) as
`hlc_counter` — `ts.get_id()` instead of the timestamp's logical counter —
so the emitted tuple never follows the generation rule on a node whose id
byte is non-zero. -/
theorem C3_next_hlc_counter_diverges :
    (next_hlc nodeFive ⟨0, 0⟩ 100).1 = (100, 5) ∧
    (clockNext ⟨0, 0⟩ 100).lc = 0 ∧
    ((next_hlc nodeFive ⟨0, 0⟩ 100).1).2 ≠ (clockNext ⟨0, 0⟩ 100).lc := by
  refine ⟨by decide, by decide, by decide⟩

/-- C4: a write whose target table has the reserved `_wavesync` prefix or is
not in the registry dispatches no `SyncOperation` and no
`ChangeNotification`; the full local-write path leaves the log, the
notification stream and the clock untouched. -/
theorem C4_reserved_or_unregistered_not_replicated
    (reg : List (String × TableMeta)) (nodeId : List Nat) (st : ClockState)
    (now opId : Nat) (kind : WriteKind) (table sql : String)
    (h : startsWithL table.data ("_wavesync".data) = true ∨
         is_registered reg table = false) :
    (dispatch_sync reg nodeId st now opId kind table sql).1 = none ∧
    (∀ (log : List LogRow) (sqlRaw : String),
        classify_write sqlRaw = some (kind, table) →
        localWrite reg nodeId st now opId log sqlRaw = (log, [], st)) := by
  have hd : ∀ s : String,
      dispatch_sync reg nodeId st now opId kind table s = (none, st) := by
    intro s
    unfold dispatch_sync
    rcases h with h | h
    · simp [h]
    · by_cases hs : startsWithL table.data ("_wavesync".data)
      · simp [hs]
      · simp [hs, h]
  refine ⟨by rw [hd sql], ?_⟩
  intro log sqlRaw hcl
  simp only [localWrite, hcl, hd sqlRaw]

/-- Witness for C4: the reserved log table itself is never replicated. -/
theorem C4_witness :
    (dispatch_sync [] nodeFive ⟨0, 0⟩ 0 0 WriteKind.insert "_wavesync_log" "s").1 = none ∧
    localWrite [] nodeFive ⟨0, 0⟩ 0 0 []
        "INSERT INTO _wavesync_log VALUES (1)" = ([], [], ⟨0, 0⟩) :=
  have h := C4_reserved_or_unregistered_not_replicated [] nodeFive ⟨0, 0⟩ 0 0
    WriteKind.insert "_wavesync_log" "s" (Or.inl (by decide))
  ⟨h.1, h.2 [] "INSERT INTO _wavesync_log VALUES (1)" (by decide)⟩

/-- The registered `tasks` table of spec scenario 1. -/
def tasksMeta : TableMeta :=
  { table_name := "tasks", primary_key_column := "id",
    columns := ["id", "title", "completed"] }

def regTasks : List (String × TableMeta) := [("tasks", tasksMeta)]

/-- A node id whose first byte is 1. -/
def nodeOne : List Nat := 1 :: List.replicate 15 0

/-- The resolved SQL of the scenario-1 insert. -/
def insertSqlU1 : String :=
  "INSERT INTO \"tasks\" (\"id\", \"title\", \"completed\") VALUES ('u1', 'Buy milk', FALSE) RETURNING \"id\", \"title\", \"completed\""

/-- C5: after the scenario-1 insert the log holds exactly one row with
`kind = insert` and `table = tasks`, but its `primary_key` is the empty
string, not `"u1"`: `dispatch_sync` hard-codes `String::new()`
(`connection.rs:229`, whose comment promises an enrichment that no caller
performs), and that empty key is what `insert_op` persists.  The
notification carries the empty key as well. -/
theorem C5_log_row_has_empty_primary_key :
    (localWrite regTasks nodeOne ⟨0, 0⟩ 100 7 [] insertSqlU1).1 =
      [{ op_id := "7", hlc_time := 100, hlc_counter := 1, node_id := nodeOne,
         table_name := "tasks", kind := "insert", primary_key := "",
         data := some insertSqlU1, columns := none }] ∧
    (localWrite regTasks nodeOne ⟨0, 0⟩ 100 7 [] insertSqlU1).2.1 =
      [{ table := "tasks", kind := WriteKind.insert, primary_key := "" }] ∧
    ("" : String) ≠ "u1" := by
  refine ⟨by decide, by decide, by decide⟩

/-- C6: when the local store rejects the decoded statement of a winning
remote operation, processing stops — the op is not appended to the log, no
notification is emitted, and (the function returning `()`) no error reaches
any caller. -/
theorem C6_remote_exec_failure_logged_and_dropped
    (lookupRes : Except String (Option SyncOperation)) (execOk : String → Bool)
    (log : List LogRow) (op : SyncOperation) (sql : String)
    (hdata : op.data = some sql)
    (happly : should_apply op (okFlatten lookupRes) = true)
    (hexec : execOk (remoteFinalSql op sql) = false) :
    apply_remote_op lookupRes execOk log op =
      { executed := some (remoteFinalSql op sql), log := log, notes := [] } := by
  simp [apply_remote_op, hdata, happly, hexec]

/-- A winning remote update whose execution will be refused by the store. -/
def opRemote : SyncOperation :=
  { op_id := 9, hlc_time := 50, hlc_counter := 0, node_id := nodeFive,
    table := "tasks", kind := WriteKind.update, primary_key := "u1",
    data := some "UPDATE tasks SET title = 'x' WHERE id = 'u1'",
    columns := none }

/-- Witness for C6 at a concrete failing execution. -/
theorem C6_witness :
    apply_remote_op (Except.ok none) (fun _ => false) [] opRemote =
      { executed := some (remoteFinalSql opRemote
          "UPDATE tasks SET title = 'x' WHERE id = 'u1'"),
        log := [], notes := [] } :=
  C6_remote_exec_failure_logged_and_dropped (Except.ok none) (fun _ => false)
    [] opRemote "UPDATE tasks SET title = 'x' WHERE id = 'u1'" rfl rfl rfl

/-- C10: a failed sync-log lookup is collapsed by `.ok().flatten()` into "no
local history": the remote op is processed exactly as if the row had no
local operation, and against an absent local operation `should_apply` always
answers true, so the LWW comparison with the actual local state is skipped. -/
theorem C10_lookup_error_treated_as_no_history :
    (∀ (e : String) (execOk : String → Bool) (log : List LogRow) (op : SyncOperation),
        apply_remote_op (Except.error e) execOk log op =
          apply_remote_op (Except.ok none) execOk log op) ∧
    (∀ op, should_apply op none = true) :=
  ⟨fun _ _ _ _ => rfl, fun _ => rfl⟩

/-! ### Literal renderer (`instrument/util.rs`, `instrument/dialects.rs`) -/

/-- `instrument/dialects.rs:5-10`. -/
inductive DialectType
  | postgreSQL
  | mySQL
  | sqlite
  | unknown
deriving DecidableEq, Repr

/-- `instrument/util.rs:14-22`. -/
inductive RewriterError
  | missingBindsTrailer
  | malformedBinds
  | placeholderCountMismatch (placeholders binds : Nat)
deriving DecidableEq, Repr

/-- `instrument/util.rs:24-28`: one parsed bind. -/
structure Bind where
  raw : String
  was_quoted : Bool
deriving DecidableEq, Repr

/-- `instrument/util.rs:42-73`: the bind-list character loop.  Arguments:
remaining input, `in_str`, `esc`, current fragment, `was_quoted`,
accumulated output (with the final trimmed-tail push of lines 68-71). -/
def parseBindsLoop : List Char → Bool → Bool → List Char → Bool → List Bind → List Bind
  | [], _, _, cur, wasQ, out =>
      if trimWs cur ≠ [] || wasQ then
        out ++ [{ raw := String.mk (trimWs cur), was_quoted := wasQ }]
      else out
  | ch :: rest, inStr, esc, cur, wasQ, out =>
      if inStr && esc then parseBindsLoop rest true false (cur ++ [ch]) wasQ out
      else if inStr && ch == '\\' then parseBindsLoop rest true true cur wasQ out
      else if inStr && ch == '"' then parseBindsLoop rest false false cur wasQ out
      else if inStr then parseBindsLoop rest true false (cur ++ [ch]) wasQ out
      else if ch == '"' then parseBindsLoop rest true esc cur true out
      else if ch == ',' then
        parseBindsLoop rest inStr esc [] false
          (if trimWs cur ≠ [] || wasQ then
            out ++ [{ raw := String.mk (trimWs cur), was_quoted := wasQ }]
          else out)
      else parseBindsLoop rest inStr esc (cur ++ [ch]) wasQ out

/-- `instrument/util.rs:30-74`: parse the `-- binds: [...]` trailer into a
bind list. -/
def parse_binds (bindsPart : List Char) : Except RewriterError (List Bind) :=
  let s := trimWs bindsPart
  match firstIdxOf '[' s with
  | none => Except.error RewriterError.malformedBinds
  | some i =>
    match rfindIdx ([']']) s with
    | none => Except.error RewriterError.malformedBinds
    | some rb =>
      if rb < i + 1 then Except.error RewriterError.malformedBinds
      else Except.ok (parseBindsLoop ((s.drop (i + 1)).take (rb - (i + 1))) false false [] false [])

/-- The largest `usize` value (64-bit targets). -/
def usizeMax : Nat := 2 ^ 64 - 1

/-- Rust `str::parse::<i128>` acceptance: optional sign, one or more ASCII
digits, value within the i128 range. -/
def parsesI128 (s : List Char) : Bool :=
  match s with
  | '+' :: t => !t.isEmpty && t.all Char.isDigit && decide (natOfDigits t ≤ 2 ^ 127 - 1)
  | '-' :: t => !t.isEmpty && t.all Char.isDigit && decide (natOfDigits t ≤ 2 ^ 127)
  | t => !t.isEmpty && t.all Char.isDigit && decide (natOfDigits t ≤ 2 ^ 127 - 1)

/-- Exponent tail of Rust `str::parse::<f64>` (`e`/`E`, optional sign, one or
more digits). -/
def expOk : List Char → Bool
  | [] => true
  | e :: rest =>
      (e == 'e' || e == 'E') &&
        (match rest with
          | '+' :: t => !t.isEmpty && t.all Char.isDigit
          | '-' :: t => !t.isEmpty && t.all Char.isDigit
          | t => !t.isEmpty && t.all Char.isDigit)

/-- Rust `str::parse::<f64>` acceptance (the grammar of `f64::from_str`;
parsing never fails on magnitude). -/
def parsesF64 (s : List Char) : Bool :=
  let body := match s with
    | '+' :: t => t
    | '-' :: t => t
    | t => t
  if eqIgnoreAsciiCase body ("inf".data) || eqIgnoreAsciiCase body ("infinity".data) ||
      eqIgnoreAsciiCase body ("nan".data) then true
  else
    match body.dropWhile Char.isDigit with
    | [] => !body.isEmpty
    | '.' :: r2 =>
        (!(body.takeWhile Char.isDigit).isEmpty || !(r2.takeWhile Char.isDigit).isEmpty) &&
          expOk (r2.dropWhile Char.isDigit)
    | r1 => !(body.takeWhile Char.isDigit).isEmpty && expOk r1

/-- Rust `str::replace('\'', "''")`. -/
def escSingleQuotes (s : List Char) : List Char :=
  (s.map (fun c => if c = '\'' then ['\'', '\''] else [c])).flatten

/-- `instrument/util.rs:82-103`: format one bind as a backend-specific SQL
literal: unquoted `null` → `NULL`; unquoted booleans → `1`/`0` for SQLite,
lower-cased keyword otherwise; unquoted integers and floats unchanged;
everything else single-quoted with `'` doubled. -/
def format_literal (b : Bind) (d : DialectType) : String :=
  if !b.was_quoted && eqIgnoreAsciiCase b.raw.data ("null".data) then "NULL"
  else if !b.was_quoted &&
      (eqIgnoreAsciiCase b.raw.data ("true".data) ||
        eqIgnoreAsciiCase b.raw.data ("false".data)) then
    match d with
    | DialectType.sqlite =>
        if eqIgnoreAsciiCase b.raw.data ("true".data) then "1" else "0"
    | _ => String.mk (b.raw.data.map Char.toLower)
  else if !b.was_quoted && parsesI128 b.raw.data then b.raw
  else if !b.was_quoted && parsesF64 b.raw.data then b.raw
  else String.mk ('\'' :: (escSingleQuotes b.raw.data ++ ['\'']))

/-- Whether the next character (Rust `peek()`) is `x`. -/
def headIs (x : Char) : List Char → Bool
  | y :: _ => y == x
  | [] => false

/-- Scanner state of the count/render loops (`instrument/util.rs:110-115`
and `201-205`): inside a single-quoted string, a double-quoted identifier, a
backtick identifier, a `--` line comment, or a `/* */` block comment. -/
structure ScanSt where
  in_sq : Bool
  in_dq : Bool
  in_bt : Bool
  in_lc : Bool
  in_bc : Bool
deriving DecidableEq, Repr

def ScanSt.init : ScanSt := ⟨false, false, false, false, false⟩

/-- `instrument/util.rs:108-181`: count placeholders outside strings,
identifiers and comments — `?` for SQLite/MySQL, `$` followed by digits for
Postgres, and an immediate 0 for the Unknown dialect.  `fuel` is a
structural recursion bound; every step consumes at least one character and
one unit of fuel, so the wrapper's `length` budget never runs out. -/
def countLoopF (d : DialectType) : ScanSt → List Char → Nat → Nat
  | _, _, 0 => 0
  | _, [], _ + 1 => 0
  | st, c :: rest, fuel + 1 =>
    if st.in_lc then
      countLoopF d (if c = '\n' then { st with in_lc := false } else st) rest fuel
    else if st.in_bc then
      if c == '*' && headIs '/' rest then
        countLoopF d { st with in_bc := false } rest.tail fuel
      else countLoopF d st rest fuel
    else if c == '\'' && !st.in_dq && !st.in_bt then
      if st.in_sq && headIs '\'' rest then
        countLoopF d st rest.tail fuel
      else countLoopF d { st with in_sq := !st.in_sq } rest fuel
    else if c == '"' && !st.in_sq && !st.in_bt then
      countLoopF d { st with in_dq := !st.in_dq } rest fuel
    else if c == '`' && !st.in_sq && !st.in_dq then
      countLoopF d { st with in_bt := !st.in_bt } rest fuel
    else if c == '-' && !st.in_sq && !st.in_dq && !st.in_bt && headIs '-' rest then
      countLoopF d { st with in_lc := true } rest.tail fuel
    else if c == '/' && !st.in_sq && !st.in_dq && !st.in_bt && headIs '*' rest then
      countLoopF d { st with in_bc := true } rest.tail fuel
    else if st.in_sq || st.in_dq || st.in_bt then
      countLoopF d st rest fuel
    else
      match d with
      | DialectType.sqlite | DialectType.mySQL =>
          (if c == '?' then 1 else 0) + countLoopF d st rest fuel
      | DialectType.postgreSQL =>
          if c == '$' then
            (if (rest.takeWhile Char.isDigit).isEmpty then 0 else 1) +
              countLoopF d st (rest.dropWhile Char.isDigit) fuel
          else countLoopF d st rest fuel
      | DialectType.unknown => 0

/-- `count_placeholders(sql_part, dialect)` with its length as fuel. -/
def count_placeholders (sqlPart : List Char) (d : DialectType) : Nat :=
  countLoopF d ScanSt.init sqlPart sqlPart.length

/-- `instrument/util.rs:199-285`: the substitution loop of
`rewrite_debugquery_to_sql`.  Same scanner as `countLoopF`; emits the
output text, with `none` modelling the `binds[...]` out-of-range index
panic (Postgres arm, and the `?` arm if the bind cursor overruns).  `bi` is
the running bind index of the `?` dialects. -/
def renderLoopF (d : DialectType) (binds : List Bind) :
    ScanSt → Nat → List Char → Nat → Option (List Char)
  | _, _, _, 0 => some []
  | _, _, [], _ + 1 => some []
  | st, bi, c :: rest, fuel + 1 =>
    if st.in_lc then
      (renderLoopF d binds (if c = '\n' then { st with in_lc := false } else st) bi rest fuel).map
        (c :: ·)
    else if st.in_bc then
      if c == '*' && headIs '/' rest then
        (renderLoopF d binds { st with in_bc := false } bi rest.tail fuel).map
          (fun t => c :: '/' :: t)
      else (renderLoopF d binds st bi rest fuel).map (c :: ·)
    else if c == '\'' && !st.in_dq && !st.in_bt then
      if st.in_sq && headIs '\'' rest then
        (renderLoopF d binds st bi rest.tail fuel).map (fun t => '\'' :: '\'' :: t)
      else
        (renderLoopF d binds { st with in_sq := !st.in_sq } bi rest fuel).map ('\'' :: ·)
    else if c == '"' && !st.in_sq && !st.in_bt then
      (renderLoopF d binds { st with in_dq := !st.in_dq } bi rest fuel).map ('"' :: ·)
    else if c == '`' && !st.in_sq && !st.in_dq then
      (renderLoopF d binds { st with in_bt := !st.in_bt } bi rest fuel).map ('`' :: ·)
    else if c == '-' && !st.in_sq && !st.in_dq && !st.in_bt && headIs '-' rest then
      (renderLoopF d binds { st with in_lc := true } bi rest.tail fuel).map
        (fun t => '-' :: '-' :: t)
    else if c == '/' && !st.in_sq && !st.in_dq && !st.in_bt && headIs '*' rest then
      (renderLoopF d binds { st with in_bc := true } bi rest.tail fuel).map
        (fun t => '/' :: '*' :: t)
    else if st.in_sq || st.in_dq || st.in_bt then
      (renderLoopF d binds st bi rest fuel).map (c :: ·)
    else
      match d with
      | DialectType.sqlite | DialectType.mySQL =>
          if c == '?' then
            match binds[bi]? with
            | none => none
            | some b =>
                (renderLoopF d binds st (bi + 1) rest fuel).map
                  ((format_literal b d).data ++ ·)
          else (renderLoopF d binds st bi rest fuel).map (c :: ·)
      | DialectType.postgreSQL =>
          if c == '$' then
            if (rest.takeWhile Char.isDigit).isEmpty ||
                decide (usizeMax < natOfDigits (rest.takeWhile Char.isDigit)) then
              (renderLoopF d binds st bi (rest.dropWhile Char.isDigit) fuel).map ('$' :: ·)
            else if natOfDigits (rest.takeWhile Char.isDigit) = 0 then none
            else
              match binds[natOfDigits (rest.takeWhile Char.isDigit) - 1]? with
              | none => none
              | some b =>
                  (renderLoopF d binds st bi (rest.dropWhile Char.isDigit) fuel).map
                    ((format_literal b d).data ++ ·)
          else (renderLoopF d binds st bi rest fuel).map (c :: ·)
      | DialectType.unknown =>
          (renderLoopF d binds st bi rest fuel).map (c :: ·)

/-- Outcome of `rewrite_debugquery_to_sql`: success, a structured
`RewriterError`, or a Rust panic (out-of-range bind index). -/
inductive RewriteResult
  | ok (s : String)
  | err (e : RewriterError)
  | panicked
deriving DecidableEq, Repr

/-- `instrument/util.rs:185-288`: split the input at the first `-- binds:`
occurrence, parse the binds, compare the placeholder count with the bind
count, then substitute; the final output is `trim_end`-ed. -/
def rewrite_debugquery_to_sql (input : String) (d : DialectType) : RewriteResult :=
  match splitOnceL ("-- binds:".data) input.data with
  | none => RewriteResult.err RewriterError.missingBindsTrailer
  | some (sqlPart, bindsPart) =>
    match parse_binds bindsPart with
    | Except.error e => RewriteResult.err e
    | Except.ok binds =>
      if count_placeholders sqlPart d ≠ binds.length then
        RewriteResult.err (RewriterError.placeholderCountMismatch
          (count_placeholders sqlPart d) binds.length)
      else
        match renderLoopF d binds ScanSt.init 0 sqlPart sqlPart.length with
        | none => RewriteResult.panicked
        | some out => RewriteResult.ok (String.mk (trimEndWs out))

/-! ### The token view of a statement (spec §4.5) and the fusion lemma -/

/-- Modelled from the spec: the region classification of §4.5.  Every
character inside a single-quoted string (with `''` doubling), a
double-quoted identifier, a backtick identifier, a `--` line comment or a
`/* */` block comment — and every other non-placeholder character — is a
`keep` token, to be emitted unchanged; a `?` placeholder outside all such
regions is a `hole`; a Postgres `$n` placeholder outside all such regions
is a `holeIdx n`. -/
inductive Tok
  | keep (c : Char)
  | hole
  | holeIdx (n : Nat)
deriving DecidableEq, Repr

/-- Modelled from the spec: classify each character of the statement
according to the region rules of §4.5, using the same scanner state as the
source loops. -/
def segmentizeF (d : DialectType) : ScanSt → List Char → Nat → List Tok
  | _, _, 0 => []
  | _, [], _ + 1 => []
  | st, c :: rest, fuel + 1 =>
    if st.in_lc then
      Tok.keep c ::
        segmentizeF d (if c = '\n' then { st with in_lc := false } else st) rest fuel
    else if st.in_bc then
      if c == '*' && headIs '/' rest then
        Tok.keep c :: Tok.keep '/' :: segmentizeF d { st with in_bc := false } rest.tail fuel
      else Tok.keep c :: segmentizeF d st rest fuel
    else if c == '\'' && !st.in_dq && !st.in_bt then
      if st.in_sq && headIs '\'' rest then
        Tok.keep '\'' :: Tok.keep '\'' :: segmentizeF d st rest.tail fuel
      else Tok.keep '\'' :: segmentizeF d { st with in_sq := !st.in_sq } rest fuel
    else if c == '"' && !st.in_sq && !st.in_bt then
      Tok.keep '"' :: segmentizeF d { st with in_dq := !st.in_dq } rest fuel
    else if c == '`' && !st.in_sq && !st.in_dq then
      Tok.keep '`' :: segmentizeF d { st with in_bt := !st.in_bt } rest fuel
    else if c == '-' && !st.in_sq && !st.in_dq && !st.in_bt && headIs '-' rest then
      Tok.keep '-' :: Tok.keep '-' :: segmentizeF d { st with in_lc := true } rest.tail fuel
    else if c == '/' && !st.in_sq && !st.in_dq && !st.in_bt && headIs '*' rest then
      Tok.keep '/' :: Tok.keep '*' :: segmentizeF d { st with in_bc := true } rest.tail fuel
    else if st.in_sq || st.in_dq || st.in_bt then
      Tok.keep c :: segmentizeF d st rest fuel
    else
      match d with
      | DialectType.sqlite | DialectType.mySQL =>
          if c == '?' then Tok.hole :: segmentizeF d st rest fuel
          else Tok.keep c :: segmentizeF d st rest fuel
      | DialectType.postgreSQL =>
          if c == '$' then
            if (rest.takeWhile Char.isDigit).isEmpty ||
                decide (usizeMax < natOfDigits (rest.takeWhile Char.isDigit)) then
              Tok.keep '$' :: segmentizeF d st (rest.dropWhile Char.isDigit) fuel
            else
              Tok.holeIdx (natOfDigits (rest.takeWhile Char.isDigit)) ::
                segmentizeF d st (rest.dropWhile Char.isDigit) fuel
          else Tok.keep c :: segmentizeF d st rest fuel
      | DialectType.unknown => Tok.keep c :: segmentizeF d st rest fuel

/-- Modelled from the spec: render a token list — kept characters are
emitted verbatim, `?` holes consume binds in order, `$n` holes use the
1-based bind index; `none` models the out-of-range bind access. -/
def segRender (d : DialectType) (binds : List Bind) : List Tok → Nat → Option (List Char)
  | [], _ => some []
  | Tok.keep c :: ts, bi => (segRender d binds ts bi).map (c :: ·)
  | Tok.hole :: ts, bi =>
      match binds[bi]? with
      | none => none
      | some b => (segRender d binds ts (bi + 1)).map ((format_literal b d).data ++ ·)
  | Tok.holeIdx n :: ts, bi =>
      if n = 0 then none
      else
        match binds[n - 1]? with
        | none => none
        | some b => (segRender d binds ts bi).map ((format_literal b d).data ++ ·)

/-- Fusion: the source's one-pass substitution loop computes exactly the
two-phase "classify, then render" reading of the spec. -/
lemma renderLoopF_eq_segRender (d : DialectType) (binds : List Bind) :
    ∀ (fuel : Nat) (st : ScanSt) (bi : Nat) (cs : List Char),
      renderLoopF d binds st bi cs fuel =
        segRender d binds (segmentizeF d st cs fuel) bi := by
  intro fuel
  induction fuel with
  | zero => intro st bi cs; cases cs <;> rfl
  | succ fuel ih =>
    intro st bi cs
    cases cs with
    | nil => rfl
    | cons c rest =>
      simp only [renderLoopF, segmentizeF]
      by_cases h1 : st.in_lc
      · simp [h1, segRender, ih]
      simp only [if_neg h1]
      by_cases h2 : st.in_bc
      · by_cases h3 : c == '*' && headIs '/' rest
        · simp [h2, h3, segRender, ih, Function.comp_def]
        · simp [h2, h3, segRender, ih]
      simp only [if_neg h2]
      by_cases h4 : c == '\'' && !st.in_dq && !st.in_bt
      · by_cases h5 : st.in_sq && headIs '\'' rest
        · simp [h4, h5, segRender, ih, Function.comp_def]
        · simp [h4, h5, segRender, ih]
      simp only [if_neg h4]
      by_cases h6 : c == '"' && !st.in_sq && !st.in_bt
      · simp [h6, segRender, ih]
      simp only [if_neg h6]
      by_cases h7 : c == '`' && !st.in_sq && !st.in_dq
      · simp [h7, segRender, ih]
      simp only [if_neg h7]
      by_cases h8 : c == '-' && !st.in_sq && !st.in_dq && !st.in_bt && headIs '-' rest
      · simp [h8, segRender, ih, Function.comp_def]
      simp only [if_neg h8]
      by_cases h9 : c == '/' && !st.in_sq && !st.in_dq && !st.in_bt && headIs '*' rest
      · simp [h9, segRender, ih, Function.comp_def]
      simp only [if_neg h9]
      by_cases h10 : st.in_sq || st.in_dq || st.in_bt
      · simp [h10, segRender, ih]
      simp only [if_neg h10]
      cases d with
      | sqlite =>
        by_cases h11 : c == '?'
        · simp only [if_pos h11]
          cases hb : binds[bi]? with
          | none => simp [hb, segRender]
          | some b => simp [hb, segRender, ih]
        · simp [h11, segRender, ih]
      | mySQL =>
        by_cases h11 : c == '?'
        · simp only [if_pos h11]
          cases hb : binds[bi]? with
          | none => simp [hb, segRender]
          | some b => simp [hb, segRender, ih]
        · simp [h11, segRender, ih]
      | postgreSQL =>
        by_cases h11 : c == '$'
        · simp only [if_pos h11]
          by_cases h12 : (rest.takeWhile Char.isDigit).isEmpty ||
              decide (usizeMax < natOfDigits (rest.takeWhile Char.isDigit))
          · simp [h12, segRender, ih]
          simp only [if_neg h12]
          by_cases h13 : natOfDigits (rest.takeWhile Char.isDigit) = 0
          · simp [h13, segRender]
          simp only [if_neg h13]
          cases hb : binds[natOfDigits (rest.takeWhile Char.isDigit) - 1]? with
          | none => simp [hb, h13, segRender]
          | some b => simp [hb, h13, segRender, ih]
        · simp [h11, segRender, ih]
      | unknown => simp [segRender, ih]

/-! ### Claims C7, C8, C9 -/

/-- C7: whenever the `-- binds:` trailer splits and the binds parse, a
difference between the placeholder count (taken outside strings, quoted
identifiers and comments) and the bind count makes the renderer return the
structured `PlaceholderCountMismatch` error instead of producing output. -/
theorem C7_count_mismatch_is_structured_error
    (input : String) (d : DialectType) (sqlPart bindsPart : List Char)
    (binds : List Bind)
    (hsplit : splitOnceL ("-- binds:".data) input.data = some (sqlPart, bindsPart))
    (hparse : parse_binds bindsPart = Except.ok binds)
    (hne : count_placeholders sqlPart d ≠ binds.length) :
    rewrite_debugquery_to_sql input d =
      RewriteResult.err (RewriterError.placeholderCountMismatch
        (count_placeholders sqlPart d) binds.length) := by
  simp only [rewrite_debugquery_to_sql, hsplit, hparse]
  simp [hne]

/-- Witness for C7: two `?` placeholders against one bind (the crate's own
`placeholders_mismatch_error` test input). -/
theorem C7_witness :
    rewrite_debugquery_to_sql "SELECT * FROM t WHERE a = ? AND b = ? -- binds: [1]"
        DialectType.sqlite =
      RewriteResult.err (RewriterError.placeholderCountMismatch 2 1) :=
  C7_count_mismatch_is_structured_error
    "SELECT * FROM t WHERE a = ? AND b = ? -- binds: [1]" DialectType.sqlite
    ("SELECT * FROM t WHERE a = ? AND b = ? ".data) (" [1]".data)
    [{ raw := "1", was_quoted := false }]
    rfl rfl (by decide)

/-- C8: the substitution loop itself does respect protected regions — it
equals the two-phase reading that first classifies every character (strings,
identifiers and comments kept verbatim, only outside placeholders becoming
holes) and then fills the holes with bind literals in order.  But the claim
fails on the spec's own boundary example: `rewrite_debugquery_to_sql`
splits its input at the FIRST occurrence of `-- binds:`, which here lies
inside the string literal `'-- binds: nope'`; the truncated statement has 0
placeholders against 1 bind, so the function returns
`PlaceholderCountMismatch{0,1}` instead of the expected `… WHERE x = 7`
with regions unchanged. -/
theorem C8_renderer_region_discipline :
    (∀ (d : DialectType) (binds : List Bind) (sql : List Char),
        renderLoopF d binds ScanSt.init 0 sql sql.length =
          segRender d binds (segmentizeF d ScanSt.init sql sql.length) 0) ∧
    rewrite_debugquery_to_sql
        "SELECT '?' AS q, '-- binds: nope' AS c /* $1 ? */ , col FROM t WHERE x = ? -- binds: [7]"
        DialectType.sqlite =
      RewriteResult.err (RewriterError.placeholderCountMismatch 0 1) :=
  ⟨fun d binds sql => renderLoopF_eq_segRender d binds sql.length ScanSt.init 0 sql,
    by decide⟩

/-- C9: refuted — a Postgres statement whose only placeholder is `$2`, with
a single bind, passes the placeholder-count check (1 placeholder, 1 bind)
and then evaluates `binds[2 - 1]` out of bounds: the renderer panics
instead of returning `Ok` or a structured `RewriterError`. -/
theorem C9_postgres_oob_bind_panics :
    rewrite_debugquery_to_sql "SELECT * FROM t WHERE a = $2 -- binds: [7]"
        DialectType.postgreSQL = RewriteResult.panicked ∧
    count_placeholders ("SELECT * FROM t WHERE a = $2 ".data)
        DialectType.postgreSQL = 1 :=
  ⟨by decide, by decide⟩

end WaveSync
